import Mathlib

/-! Shallow embedding of the image-inspector configuration core:
`pkg/util/util.go` (string-list helpers) and the `cmd` package
(`ImageInspectorOptions`, `NewDefaultImageInspectorOptions`, `Validate`).
Filesystem interaction (`os.Stat`) is modelled as an explicit map from
paths to stat outcomes. -/

namespace ImageInspector

/-- `util.StringInList` from `pkg/util/util.go`: linear scan, exact string match. -/
def StringInList (s : String) : List String → Bool
  | [] => false
  | opt :: rest => if s = opt then true else StringInList s rest

/-- The accumulator loop of `util.Unique`: `b` is the output built so far;
each input element is appended to `b` unless already present. -/
def uniqueAux : List String → List String → List String
  | b, [] => b
  | b, v :: rest =>
    if StringInList v b then uniqueAux b rest
    else uniqueAux (b ++ [v]) rest

/-- `util.Unique` from `pkg/util/util.go`: starts from the empty accumulator. -/
def Unique (a : List String) : List String := uniqueAux [] a

/-- Outcome of an `os.Stat` call on a path: success (with the directory bit of
the returned `FileInfo`), an error satisfying `os.IsNotExist`, or any other
stat error (e.g. permission denied on a parent directory). -/
inductive StatResult where
  | found (isDir : Bool)
  | notExist
  | otherErr
  deriving DecidableEq, Repr

/-- Filesystem state: what `os.Stat` reports for each path. -/
abbrev FS := String → StatResult

/-- The distinct errors `Validate` can return, one constructor per
`fmt.Errorf` site, carrying the context the message interpolates. -/
inductive Err where
  | MissingConnection
  | ConflictingTarget
  | MissingTarget
  | MissingContainerForDiff
  | ConflictingAuth
  | MissingPasswordFile
  | ChrootRequiresServe
  | ResultsDirWithoutScanType
  | ResultsDirNotADirectory (dir : String)
  | TokenFileWithoutPostURL
  | HTMLReportRequiresOpenSCAP
  | FileNotFound (path : String)
  | MissingClamSocket
  | InvalidScanType (v : String) (domain : List String)
  | InvalidPullPolicy (v : String) (domain : List String)
  deriving DecidableEq, Repr

/-- The message text of each error, as produced by the `fmt.Errorf` calls. -/
def Err.message : Err → String
  | .MissingConnection => "docker socket connection must be specified"
  | .ConflictingTarget => "options container and image are mutually exclusive"
  | .MissingTarget => "docker image or container must be specified to inspect"
  | .MissingContainerForDiff => "please specify docker container"
  | .ConflictingAuth => "only specify dockercfg file or username/password pair for authentication"
  | .MissingPasswordFile => "please specify password-file for the given username"
  | .ChrootRequiresServe => "change root can be used only when serving the image through webdav"
  | .ResultsDirWithoutScanType => "scan-result-dir can be used only when spacifing scan-type"
  | .ResultsDirNotADirectory dir => s!"scan-results-dir \"{dir}\" is not a directory"
  | .TokenFileWithoutPostURL => "post-results-url must be set to use post-results-token-file"
  | .HTMLReportRequiresOpenSCAP =>
      "openscap-html-report can be used only when specifying scan-type as \"openscap\""
  | .FileNotFound path => s!"{path} does not exist"
  | .MissingClamSocket => "clam-socket must be set to use clamav scan type"
  | .InvalidScanType v domain =>
      s!"{v} is not one of the available scan-types which are {domain}"
  | .InvalidPullPolicy v domain =>
      s!"{v} is not one of the available pull-policy options which are {domain}"

/-- `MultiStringVar` is a growable list of strings (`flag.Value` for repeated
flags); only its sequence of values matters to validation. -/
abbrev MultiStringVar := List String

/-- Modelled from the spec: the enumerated domain of valid scan-type
identifiers (`iiapi.ScanOptions`, not under `src/`); the spec fixes it as a
closed set that includes at least `"openscap"` and `"clamav"`. -/
def ScanOptions : List String := ["openscap", "clamav"]

/-- Modelled from the spec: the pull-policy identifier meaning
"pull if not present" (`iiapi.PullIfNotPresent`, not under `src/`). -/
def PullIfNotPresent : String := "if-not-present"

/-- Modelled from the spec: the enumerated domain of valid pull-policy
identifiers (`iiapi.PullPolicyOptions`, not under `src/`); the spec fixes it
as a closed set that includes at least "always," "if-not-present," "never." -/
def PullPolicyOptions : List String := ["always", PullIfNotPresent, "never"]

/-- Modelled from the spec: the fixed default CVE feed location
(`oscapscanner.CVEUrl`, not under `src/`). -/
def CVEUrl : String := "https://www.redhat.com/security/data/metrics/ds/"

/-- `DefaultDockerSocketLocation` from the `cmd` package. -/
def DefaultDockerSocketLocation : String := "unix:///var/run/docker.sock"

/-- `ImageInspectorOptions`: the aggregate configuration record. -/
structure ImageInspectorOptions where
  URI : String
  Image : String
  Container : String
  ScanContainerChanges : Bool
  DstPath : String
  Serve : String
  Chroot : Bool
  DockerCfg : MultiStringVar
  Username : String
  PasswordFile : String
  ScanTypes : MultiStringVar
  ScanResultsDir : String
  OpenScapHTML : Bool
  CVEUrlPath : String
  ClamSocket : String
  PostResultURL : String
  PostResultTokenFile : String
  AuthToken : String
  AuthTokenFile : String
  PullPolicy : String
  deriving DecidableEq, Repr

/-- The Go zero value of `ImageInspectorOptions`: every string empty, every
bool false, every list empty. -/
def zeroOptions : ImageInspectorOptions where
  URI := ""
  Image := ""
  Container := ""
  ScanContainerChanges := false
  DstPath := ""
  Serve := ""
  Chroot := false
  DockerCfg := []
  Username := ""
  PasswordFile := ""
  ScanTypes := []
  ScanResultsDir := ""
  OpenScapHTML := false
  CVEUrlPath := ""
  ClamSocket := ""
  PostResultURL := ""
  PostResultTokenFile := ""
  AuthToken := ""
  AuthTokenFile := ""
  PullPolicy := ""

/-- `NewDefaultImageInspectorOptions`: defaults for URI, DockerCfg, ScanTypes,
CVEUrlPath and PullPolicy; all other fields keep their zero values. -/
def NewDefaultImageInspectorOptions : ImageInspectorOptions :=
  { zeroOptions with
    URI := DefaultDockerSocketLocation
    DockerCfg := []
    ScanTypes := []
    CVEUrlPath := CVEUrl
    PullPolicy := PullIfNotPresent }

/-- The loop `for _, fl := range append(i.DockerCfg, i.PasswordFile)` of
`Validate`: the first non-empty path whose stat error satisfies
`os.IsNotExist`. -/
def firstMissing (fs : FS) : List String → Option String
  | [] => none
  | fl :: rest =>
    if 0 < fl.length ∧ fs fl = .notExist then some fl
    else firstMissing fs rest

/-- The loop `for _, v := range i.ScanTypes` of `Validate`: the first scan
type not in `ScanOptions`. -/
def firstInvalid : List String → Option String
  | [] => none
  | v :: rest =>
    if StringInList v ScanOptions = false then some v
    else firstInvalid rest

/-- `Validate` from the `cmd` package, translated clause by clause; `fs` is
the state `os.Stat` consults. Returns `none` for a valid configuration and
`some e` for the first failed check. -/
def Validate (i : ImageInspectorOptions) (fs : FS) : Option Err :=
  if i.URI.length = 0 then some .MissingConnection
  else if 0 < i.Image.length ∧ 0 < i.Container.length then some .ConflictingTarget
  else if i.Image.length = 0 ∧ i.Container.length = 0 then some .MissingTarget
  else if i.ScanContainerChanges = true ∧ i.Container.length = 0 then
    some .MissingContainerForDiff
  else if 0 < i.DockerCfg.length ∧ 0 < i.Username.length then some .ConflictingAuth
  else if 0 < i.Username.length ∧ i.PasswordFile.length = 0 then some .MissingPasswordFile
  else if i.Serve.length = 0 ∧ i.Chroot = true then some .ChrootRequiresServe
  else if 0 < i.ScanResultsDir.length ∧ i.ScanTypes.length = 0 then
    some .ResultsDirWithoutScanType
  else if 0 < i.ScanResultsDir.length ∧ fs i.ScanResultsDir = .found false then
    some (.ResultsDirNotADirectory i.ScanResultsDir)
  else if 0 < i.PostResultTokenFile.length ∧ i.PostResultURL.length = 0 then
    some .TokenFileWithoutPostURL
  else if i.OpenScapHTML = true ∧ StringInList "openscap" i.ScanTypes = false then
    some .HTMLReportRequiresOpenSCAP
  else match firstMissing fs (i.DockerCfg ++ [i.PasswordFile]) with
  | some fl => some (.FileNotFound fl)
  | none =>
    if StringInList "clamav" i.ScanTypes = true ∧ i.ClamSocket.length = 0 then
      some .MissingClamSocket
    else match (if 0 < i.ScanTypes.length then firstInvalid i.ScanTypes else none) with
    | some v => some (.InvalidScanType v ScanOptions)
    | none =>
      if StringInList i.PullPolicy PullPolicyOptions = false then
        some (.InvalidPullPolicy i.PullPolicy PullPolicyOptions)
      else none

/-! ### Spec-side rule list

Section 4.3 of the design document lists fifteen rules evaluated in a fixed
order, the first failing one being returned.  Each rule below is written from
the spec's own wording; `firstViolation` is the spec's first-failure
semantics.  `Validate` is proved equal to `firstViolation rules`. -/

/-- Spec rule 1: `ConnectionURI` non-empty, else `MissingConnection`. -/
def r1 (i : ImageInspectorOptions) (_ : FS) : Option Err :=
  if i.URI = "" then some .MissingConnection else none

/-- Spec rule 2: not both `ImageRef` and `ContainerRef` non-empty, else
`ConflictingTarget`. -/
def r2 (i : ImageInspectorOptions) (_ : FS) : Option Err :=
  if i.Image ≠ "" ∧ i.Container ≠ "" then some .ConflictingTarget else none

/-- Spec rule 3: at least one of `ImageRef`/`ContainerRef` non-empty, else
`MissingTarget`. -/
def r3 (i : ImageInspectorOptions) (_ : FS) : Option Err :=
  if i.Image = "" ∧ i.Container = "" then some .MissingTarget else none

/-- Spec rule 4: if `ScanContainerChanges`, `ContainerRef` must be non-empty,
else `MissingContainerForDiff`. -/
def r4 (i : ImageInspectorOptions) (_ : FS) : Option Err :=
  if i.ScanContainerChanges = true ∧ i.Container = "" then
    some .MissingContainerForDiff
  else none

/-- Spec rule 5: not both `RegistryConfigFiles` non-empty and `Username`
non-empty, else `ConflictingAuth`. -/
def r5 (i : ImageInspectorOptions) (_ : FS) : Option Err :=
  if i.DockerCfg ≠ [] ∧ i.Username ≠ "" then some .ConflictingAuth else none

/-- Spec rule 6: if `Username` non-empty, `PasswordFile` must be non-empty,
else `MissingPasswordFile`. -/
def r6 (i : ImageInspectorOptions) (_ : FS) : Option Err :=
  if i.Username ≠ "" ∧ i.PasswordFile = "" then some .MissingPasswordFile else none

/-- Spec rule 7: if `ServeAddress` empty, `ChrootOnServe` must be false, else
`ChrootRequiresServe`. -/
def r7 (i : ImageInspectorOptions) (_ : FS) : Option Err :=
  if i.Serve = "" ∧ i.Chroot = true then some .ChrootRequiresServe else none

/-- Spec rule 8: if `ScanResultsDir` non-empty, `ScanTypes` must be non-empty,
else `ResultsDirWithoutScanType`. -/
def r8 (i : ImageInspectorOptions) (_ : FS) : Option Err :=
  if i.ScanResultsDir ≠ "" ∧ i.ScanTypes = [] then
    some .ResultsDirWithoutScanType
  else none

/-- Spec rule 9: if `ScanResultsDir` non-empty and a filesystem entry exists
at that path, it must be a directory, else `ResultsDirNotADirectory`; a path
with no entry (or an unreadable one) passes. -/
def r9 (i : ImageInspectorOptions) (fs : FS) : Option Err :=
  if i.ScanResultsDir ≠ "" ∧ fs i.ScanResultsDir = .found false then
    some (.ResultsDirNotADirectory i.ScanResultsDir)
  else none

/-- Spec rule 10: if `ResultPostTokenFile` non-empty, `ResultPostURL` must be
non-empty, else `TokenFileWithoutPostURL`. -/
def r10 (i : ImageInspectorOptions) (_ : FS) : Option Err :=
  if i.PostResultTokenFile ≠ "" ∧ i.PostResultURL = "" then
    some .TokenFileWithoutPostURL
  else none

/-- Spec rule 11: if `GenerateHTMLReport`, `ScanTypes` must contain
`"openscap"`, else `HTMLReportRequiresOpenSCAP`. -/
def r11 (i : ImageInspectorOptions) (_ : FS) : Option Err :=
  if i.OpenScapHTML = true ∧ "openscap" ∉ i.ScanTypes then
    some .HTMLReportRequiresOpenSCAP
  else none

/-- Spec rule 12: every non-empty path among `RegistryConfigFiles` and
`PasswordFile`, in that concatenation order, must exist on the filesystem,
else `FileNotFound` naming the first missing path. -/
def r12 (i : ImageInspectorOptions) (fs : FS) : Option Err :=
  ((i.DockerCfg ++ [i.PasswordFile]).find?
    (fun p => decide (p ≠ "" ∧ fs p = .notExist))).map .FileNotFound

/-- Spec rule 13: if `ScanTypes` contains `"clamav"`, `ClamAVSocketPath` must
be non-empty, else `MissingClamSocket`. -/
def r13 (i : ImageInspectorOptions) (_ : FS) : Option Err :=
  if "clamav" ∈ i.ScanTypes ∧ i.ClamSocket = "" then
    some .MissingClamSocket
  else none

/-- Spec rule 14: every element of `ScanTypes` must belong to the enumerated
domain of scan types, else `InvalidScanType` naming the first offending value
and the domain. -/
def r14 (i : ImageInspectorOptions) (_ : FS) : Option Err :=
  (i.ScanTypes.find? (fun v => decide (v ∉ ScanOptions))).map
    (fun v => .InvalidScanType v ScanOptions)

/-- Spec rule 15: `PullPolicy` must belong to the enumerated domain of pull
policies, else `InvalidPullPolicy` naming the offending value and the domain. -/
def r15 (i : ImageInspectorOptions) (_ : FS) : Option Err :=
  if i.PullPolicy ∉ PullPolicyOptions then
    some (.InvalidPullPolicy i.PullPolicy PullPolicyOptions)
  else none

/-- The spec's fifteen rules, in their fixed order. -/
def rules : List (ImageInspectorOptions → FS → Option Err) :=
  [r1, r2, r3, r4, r5, r6, r7, r8, r9, r10, r11, r12, r13, r14, r15]

/-- Spec-side first-failure semantics: the result of the first rule that is
violated, `none` when every rule passes. -/
def firstViolation : List (ImageInspectorOptions → FS → Option Err) →
    ImageInspectorOptions → FS → Option Err
  | [], _, _ => none
  | r :: rs, i, fs => (r i fs).or (firstViolation rs i fs)

/-- Spec-side de-duplication keeping the first occurrence of each value:
the head is kept and all of its later duplicates are dropped before
recursing. -/
def dedupFirst : List String → List String
  | [] => []
  | x :: xs => x :: dedupFirst (xs.filter (fun y => decide (y ≠ x)))
termination_by l => l.length
decreasing_by
  simp only [List.length_cons]
  exact Nat.lt_succ_of_le (List.length_filter_le _ _)

/-! ### Helper lemmas bridging the spec's vocabulary and the code's -/

theorem str_len0_iff (s : String) : s.length = 0 ↔ s = "" := by
  constructor
  · intro h
    have : s.data = [] := List.length_eq_zero.mp h
    cases s; simp_all
  · intro h; subst h; rfl

theorem str_pos_iff (s : String) : 0 < s.length ↔ s ≠ "" := by
  rw [Nat.pos_iff_ne_zero, ne_eq, str_len0_iff]

theorem stringInList_eq_true_iff (s : String) (l : List String) :
    StringInList s l = true ↔ s ∈ l := by
  induction l with
  | nil => simp [StringInList]
  | cons x xs ih =>
    by_cases h : s = x <;> simp [StringInList, h, ih]

theorem stringInList_eq_false_iff (s : String) (l : List String) :
    StringInList s l = false ↔ s ∉ l := by
  rw [← stringInList_eq_true_iff]
  cases StringInList s l <;> simp

theorem firstMissing_eq_find (fs : FS) (l : List String) :
    firstMissing fs l
      = l.find? (fun p => decide (p ≠ "" ∧ fs p = StatResult.notExist)) := by
  induction l with
  | nil => rfl
  | cons x xs ih =>
    unfold firstMissing
    by_cases h : 0 < x.length ∧ fs x = StatResult.notExist
    · rw [if_pos h, List.find?_cons_of_pos]
      simp only [decide_eq_true_eq]
      exact ⟨(str_pos_iff x).mp h.1, h.2⟩
    · rw [if_neg h, ih, List.find?_cons_of_neg]
      simp only [decide_eq_true_eq]
      intro hc
      exact h ⟨(str_pos_iff x).mpr hc.1, hc.2⟩

theorem firstInvalid_eq_find (l : List String) :
    firstInvalid l = l.find? (fun v => decide (v ∉ ScanOptions)) := by
  induction l with
  | nil => rfl
  | cons x xs ih =>
    unfold firstInvalid
    by_cases h : StringInList x ScanOptions = false
    · rw [if_pos h, List.find?_cons_of_pos]
      simp only [decide_eq_true_eq]
      exact (stringInList_eq_false_iff x ScanOptions).mp h
    · rw [if_neg h, ih, List.find?_cons_of_neg]
      simp only [decide_eq_true_eq]
      have : StringInList x ScanOptions = true := by
        cases hb : StringInList x ScanOptions
        · exact absurd hb h
        · rfl
      exact not_not_intro ((stringInList_eq_true_iff x ScanOptions).mp this)

/-! ### Each spec rule restated in the code's vocabulary -/

theorem r1_eq (i : ImageInspectorOptions) (fs : FS) :
    r1 i fs = if i.URI.length = 0 then some Err.MissingConnection else none := by
  unfold r1; split_ifs <;> simp_all [str_len0_iff]

theorem r2_eq (i : ImageInspectorOptions) (fs : FS) :
    r2 i fs = if 0 < i.Image.length ∧ 0 < i.Container.length then
      some Err.ConflictingTarget else none := by
  unfold r2; split_ifs <;> simp_all [str_pos_iff]

theorem r3_eq (i : ImageInspectorOptions) (fs : FS) :
    r3 i fs = if i.Image.length = 0 ∧ i.Container.length = 0 then
      some Err.MissingTarget else none := by
  unfold r3; split_ifs <;> simp_all [str_len0_iff]

theorem r4_eq (i : ImageInspectorOptions) (fs : FS) :
    r4 i fs = if i.ScanContainerChanges = true ∧ i.Container.length = 0 then
      some Err.MissingContainerForDiff else none := by
  unfold r4; split_ifs <;> simp_all [str_len0_iff]

theorem r5_eq (i : ImageInspectorOptions) (fs : FS) :
    r5 i fs = if 0 < i.DockerCfg.length ∧ 0 < i.Username.length then
      some Err.ConflictingAuth else none := by
  unfold r5; split_ifs <;> simp_all [str_pos_iff, List.length_pos]

theorem r6_eq (i : ImageInspectorOptions) (fs : FS) :
    r6 i fs = if 0 < i.Username.length ∧ i.PasswordFile.length = 0 then
      some Err.MissingPasswordFile else none := by
  unfold r6; split_ifs <;> simp_all [str_pos_iff, str_len0_iff]

theorem r7_eq (i : ImageInspectorOptions) (fs : FS) :
    r7 i fs = if i.Serve.length = 0 ∧ i.Chroot = true then
      some Err.ChrootRequiresServe else none := by
  unfold r7; split_ifs <;> simp_all [str_len0_iff]

theorem r8_eq (i : ImageInspectorOptions) (fs : FS) :
    r8 i fs = if 0 < i.ScanResultsDir.length ∧ i.ScanTypes.length = 0 then
      some Err.ResultsDirWithoutScanType else none := by
  unfold r8; split_ifs <;> simp_all [str_pos_iff, List.length_eq_zero]

theorem r9_eq (i : ImageInspectorOptions) (fs : FS) :
    r9 i fs = if 0 < i.ScanResultsDir.length ∧ fs i.ScanResultsDir = .found false then
      some (Err.ResultsDirNotADirectory i.ScanResultsDir) else none := by
  unfold r9; split_ifs <;> simp_all [str_pos_iff]

theorem r10_eq (i : ImageInspectorOptions) (fs : FS) :
    r10 i fs = if 0 < i.PostResultTokenFile.length ∧ i.PostResultURL.length = 0 then
      some Err.TokenFileWithoutPostURL else none := by
  unfold r10; split_ifs <;> simp_all [str_pos_iff, str_len0_iff]

theorem r11_eq (i : ImageInspectorOptions) (fs : FS) :
    r11 i fs = if i.OpenScapHTML = true ∧ StringInList "openscap" i.ScanTypes = false then
      some Err.HTMLReportRequiresOpenSCAP else none := by
  unfold r11; split_ifs <;> simp_all [stringInList_eq_false_iff]

theorem r12_eq (i : ImageInspectorOptions) (fs : FS) :
    r12 i fs = (firstMissing fs (i.DockerCfg ++ [i.PasswordFile])).map Err.FileNotFound := by
  unfold r12; rw [firstMissing_eq_find]

theorem r13_eq (i : ImageInspectorOptions) (fs : FS) :
    r13 i fs = if StringInList "clamav" i.ScanTypes = true ∧ i.ClamSocket.length = 0 then
      some Err.MissingClamSocket else none := by
  unfold r13; split_ifs <;> simp_all [stringInList_eq_true_iff, str_len0_iff]

theorem r14_eq (i : ImageInspectorOptions) (fs : FS) :
    r14 i fs = (if 0 < i.ScanTypes.length then firstInvalid i.ScanTypes else none).map
      (fun v => Err.InvalidScanType v ScanOptions) := by
  unfold r14
  by_cases h : 0 < i.ScanTypes.length
  · rw [if_pos h, firstInvalid_eq_find]
  · rw [if_neg h]
    have : i.ScanTypes = [] := by
      rcases Nat.eq_zero_or_pos i.ScanTypes.length with h0 | hp
      · exact List.length_eq_zero.mp h0
      · exact absurd hp h
    rw [this]
    rfl

theorem r15_eq (i : ImageInspectorOptions) (fs : FS) :
    r15 i fs = if StringInList i.PullPolicy PullPolicyOptions = false then
      some (Err.InvalidPullPolicy i.PullPolicy PullPolicyOptions) else none := by
  unfold r15; split_ifs <;> simp_all [stringInList_eq_false_iff]

/-! ### The refinement: `Validate` is first-failure over the rule list -/

theorem or_guard (C : Prop) [Decidable C] (e : Err) (k : Option Err) :
    (if C then some e else none).or k = if C then some e else k := by
  split_ifs <;> rfl

theorem or_map_fileNotFound (o : Option String) (k : Option Err) :
    (o.map Err.FileNotFound).or k
      = match o with | some fl => some (Err.FileNotFound fl) | none => k := by
  cases o <;> rfl

theorem or_map_invalidScanType (o : Option String) (k : Option Err) :
    (o.map (fun v => Err.InvalidScanType v ScanOptions)).or k
      = match o with | some v => some (Err.InvalidScanType v ScanOptions) | none => k := by
  cases o <;> rfl

theorem validate_eq_firstViolation (i : ImageInspectorOptions) (fs : FS) :
    Validate i fs = firstViolation rules i fs := by
  simp only [rules, firstViolation, r1_eq, r2_eq, r3_eq, r4_eq, r5_eq, r6_eq, r7_eq,
    r8_eq, r9_eq, r10_eq, r11_eq, r12_eq, r13_eq, r14_eq, r15_eq, or_guard,
    or_map_fileNotFound, or_map_invalidScanType]
  rfl

theorem firstViolation_eq_none_iff (rs : List (ImageInspectorOptions → FS → Option Err))
    (i : ImageInspectorOptions) (fs : FS) :
    firstViolation rs i fs = none ↔ ∀ r ∈ rs, r i fs = none := by
  induction rs with
  | nil => simp [firstViolation]
  | cons r rs ih =>
    simp only [firstViolation, List.mem_cons]
    cases h : r i fs with
    | none => simp [Option.none_or, ih, h]
    | some e =>
      simp only [Option.or]
      constructor
      · intro hc; cases hc
      · intro hall
        have := hall r (Or.inl rfl)
        rw [h] at this
        cases this

theorem firstViolation_append (rs1 rs2 : List (ImageInspectorOptions → FS → Option Err))
    (i : ImageInspectorOptions) (fs : FS) (h : ∀ r ∈ rs1, r i fs = none) :
    firstViolation (rs1 ++ rs2) i fs = firstViolation rs2 i fs := by
  induction rs1 with
  | nil => rfl
  | cons r rs ih =>
    have hr : r i fs = none := h r (List.mem_cons_self r rs)
    have hrest : ∀ q ∈ rs, q i fs = none := fun q hq => h q (List.mem_cons_of_mem r hq)
    simp [firstViolation, hr, Option.none_or, ih hrest]

/-! ### `Unique` computes first-occurrence de-duplication -/

theorem uniqueAux_eq (a b : List String) :
    uniqueAux b a = b ++ dedupFirst (a.filter (fun y => decide (y ∉ b))) := by
  induction a generalizing b with
  | nil => simp [uniqueAux, dedupFirst]
  | cons v rest ih =>
    by_cases hv : v ∈ b
    · have hT : StringInList v b = true := (stringInList_eq_true_iff v b).mpr hv
      have hstep : List.filter (fun y => decide (y ∉ b)) (v :: rest)
          = List.filter (fun y => decide (y ∉ b)) rest := by
        rw [List.filter_cons]
        simp [hv]
      rw [uniqueAux, if_pos hT, ih, hstep]
    · have hT : ¬(StringInList v b = true) := by
        rw [stringInList_eq_true_iff]; exact hv
      have hstep : List.filter (fun y => decide (y ∉ b)) (v :: rest)
          = v :: List.filter (fun y => decide (y ∉ b)) rest := by
        rw [List.filter_cons]
        simp [hv]
      rw [uniqueAux, if_neg hT, ih, hstep, dedupFirst, List.filter_filter]
      have hpred : rest.filter (fun a => decide (a ≠ v) && decide (a ∉ b))
          = rest.filter (fun y => decide (y ∉ b ++ [v])) := by
        apply List.filter_congr
        intro y _
        by_cases h1 : y = v <;> by_cases h2 : y ∈ b <;> simp [h1, h2]
      rw [hpred, List.append_assoc]
      rfl

theorem unique_eq_dedupFirst (a : List String) : Unique a = dedupFirst a := by
  rw [Unique, uniqueAux_eq]
  have h : a.filter (fun y => decide ((y : String) ∉ ([] : List String))) = a :=
    List.filter_eq_self.mpr (fun y _ => by simp)
  rw [h, List.nil_append]

theorem mem_dedupFirst (x : String) (l : List String) : x ∈ dedupFirst l ↔ x ∈ l := by
  induction l using dedupFirst.induct with
  | case1 => simp [dedupFirst]
  | case2 y ys ih =>
    rw [dedupFirst]
    simp only [List.mem_cons, ih, List.mem_filter, decide_eq_true_eq]
    constructor
    · rintro (rfl | ⟨h1, _⟩)
      · exact Or.inl rfl
      · exact Or.inr h1
    · rintro (rfl | h1)
      · exact Or.inl rfl
      · by_cases hxy : x = y
        · exact Or.inl hxy
        · exact Or.inr ⟨h1, hxy⟩

theorem nodup_dedupFirst (l : List String) : (dedupFirst l).Nodup := by
  induction l using dedupFirst.induct with
  | case1 => simp [dedupFirst]
  | case2 y ys ih =>
    rw [dedupFirst]
    refine List.nodup_cons.mpr ⟨?_, ih⟩
    intro hmem
    rw [mem_dedupFirst] at hmem
    have := (List.mem_filter.mp hmem).2
    simp at this

theorem dedupFirst_of_nodup (l : List String) : l.Nodup → dedupFirst l = l := by
  induction l using dedupFirst.induct with
  | case1 => intro _; simp [dedupFirst]
  | case2 y ys ih =>
    intro h
    have hy : y ∉ ys := (List.nodup_cons.mp h).1
    have hfil : ys.filter (fun z => decide (z ≠ y)) = ys :=
      List.filter_eq_self.mpr (fun a ha => by
        simp only [decide_eq_true_eq]
        intro heq
        exact hy (heq ▸ ha))
    rw [dedupFirst, hfil]
    rw [hfil] at ih
    rw [ih (List.nodup_cons.mp h).2]

/-! ### Concrete configurations used in witnesses and scenarios -/

/-- Target conflict scenario: image and container both set, diff-mode on. -/
def optsConflictTarget : ImageInspectorOptions :=
  { zeroOptions with
    URI := "u"
    Image := "a"
    Container := "b"
    ScanContainerChanges := true }

/-- A configuration whose only registry config file is absent. -/
def optsFileMissing : ImageInspectorOptions :=
  { zeroOptions with
    URI := "u"
    Image := "a"
    DockerCfg := ["/missing"] }

/-- A configuration whose scan-results directory path names a plain file. -/
def optsResultsDir : ImageInspectorOptions :=
  { zeroOptions with
    URI := "u"
    Image := "a"
    ScanTypes := ["openscap"]
    ScanResultsDir := "/tmp/f" }

/-- A filesystem where `/tmp/f` is a regular file and nothing else exists. -/
def fsResultsDir : FS :=
  fun p => if p = "/tmp/f" then StatResult.found false else StatResult.notExist

/-- The spec's clamav scenario: default socket URI, image busybox, scan type
clamav, empty ClamAV socket path, every other field zero-valued. -/
def optsClamavScenario : ImageInspectorOptions :=
  { zeroOptions with
    URI := "unix:///var/run/docker.sock"
    Image := "busybox"
    ScanTypes := ["clamav"] }

/-! ### Claims -/

/-- C1: `Validate` evaluates the spec's fifteen rules in their fixed order
with first-failure semantics — it returns exactly the error of the first
violated rule, later rules never mattering once one fails — and it returns
`none` if and only if no rule is violated. -/
theorem validate_first_failure (i : ImageInspectorOptions) (fs : FS) :
    Validate i fs = firstViolation rules i fs
      ∧ (Validate i fs = none ↔ ∀ r ∈ rules, r i fs = none) :=
  ⟨validate_eq_firstViolation i fs,
    (validate_eq_firstViolation i fs) ▸ firstViolation_eq_none_iff rules i fs⟩

/-- C2: whenever `ConnectionURI` is empty, `Validate` returns the
`MissingConnection` error, regardless of every other field and of the
filesystem state. -/
theorem validate_missing_connection (i : ImageInspectorOptions) (fs : FS)
    (h : i.URI = "") : Validate i fs = some Err.MissingConnection := by
  unfold Validate
  rw [if_pos ((str_len0_iff i.URI).mpr h)]

theorem validate_missing_connection_witness :
    Validate zeroOptions (fun _ => StatResult.notExist) = some Err.MissingConnection :=
  validate_missing_connection zeroOptions (fun _ => StatResult.notExist) rfl

/-- C3: with a non-empty `ConnectionURI`, setting both `ImageRef` and
`ContainerRef` makes `Validate` return `ConflictingTarget`, for every other
field value (in particular even when `ScanContainerChanges` is true) and
every filesystem state. -/
theorem validate_conflicting_target (i : ImageInspectorOptions) (fs : FS)
    (hu : i.URI ≠ "") (himg : i.Image ≠ "") (hcont : i.Container ≠ "") :
    Validate i fs = some Err.ConflictingTarget := by
  unfold Validate
  rw [if_neg (fun hc => hu ((str_len0_iff i.URI).mp hc)),
    if_pos ⟨(str_pos_iff i.Image).mpr himg, (str_pos_iff i.Container).mpr hcont⟩]

theorem validate_conflicting_target_witness :
    Validate optsConflictTarget (fun _ => StatResult.notExist)
      = some Err.ConflictingTarget :=
  validate_conflicting_target optsConflictTarget (fun _ => StatResult.notExist)
    (by decide) (by decide) (by decide)

/-- C4: once spec rules 1-11 pass, if some non-empty path among
`RegistryConfigFiles` followed by `PasswordFile` (in that concatenation
order) is missing from the filesystem, `Validate` returns `FileNotFound`
naming the first such path. -/
theorem validate_file_not_found (i : ImageInspectorOptions) (fs : FS) (p : String)
    (h11 : ∀ r ∈ [r1, r2, r3, r4, r5, r6, r7, r8, r9, r10, r11], r i fs = none)
    (hp : (i.DockerCfg ++ [i.PasswordFile]).find?
      (fun q => decide (q ≠ "" ∧ fs q = StatResult.notExist)) = some p) :
    Validate i fs = some (Err.FileNotFound p) := by
  rw [validate_eq_firstViolation]
  have hsplit : rules
      = [r1, r2, r3, r4, r5, r6, r7, r8, r9, r10, r11] ++ [r12, r13, r14, r15] := rfl
  rw [hsplit, firstViolation_append _ _ i fs h11]
  simp only [firstViolation]
  unfold r12
  rw [hp]
  rfl

theorem validate_file_not_found_witness :
    Validate optsFileMissing (fun _ => StatResult.notExist)
      = some (Err.FileNotFound "/missing") :=
  validate_file_not_found optsFileMissing
    (fun _ => StatResult.notExist) "/missing" (by decide) (by decide)

/-- C5: once spec rules 1-8 pass and `ScanResultsDir` is non-empty, a
filesystem entry at that path which is not a directory makes `Validate`
return `ResultsDirNotADirectory`, while a path with no entry passes the rule
and validation proceeds to the later rules. -/
theorem validate_results_dir_check (i : ImageInspectorOptions) (fs : FS)
    (h8 : ∀ r ∈ [r1, r2, r3, r4, r5, r6, r7, r8], r i fs = none)
    (hdir : i.ScanResultsDir ≠ "") :
    (fs i.ScanResultsDir = StatResult.found false →
        Validate i fs = some (Err.ResultsDirNotADirectory i.ScanResultsDir))
      ∧ (fs i.ScanResultsDir = StatResult.notExist →
        Validate i fs = firstViolation [r10, r11, r12, r13, r14, r15] i fs) := by
  have hsplit : rules
      = [r1, r2, r3, r4, r5, r6, r7, r8] ++ [r9, r10, r11, r12, r13, r14, r15] := rfl
  constructor
  · intro hfs
    rw [validate_eq_firstViolation, hsplit, firstViolation_append _ _ i fs h8]
    simp only [firstViolation]
    unfold r9
    rw [if_pos ⟨hdir, hfs⟩]
    rfl
  · intro hfs
    rw [validate_eq_firstViolation, hsplit, firstViolation_append _ _ i fs h8]
    have h9 : r9 i fs = none := by
      unfold r9
      rw [if_neg]
      rintro ⟨-, hc⟩
      rw [hfs] at hc
      cases hc
    show (r9 i fs).or _ = _
    rw [h9, Option.none_or]

theorem validate_results_dir_check_witness :
    Validate optsResultsDir fsResultsDir
      = some (Err.ResultsDirNotADirectory "/tmp/f") :=
  (validate_results_dir_check optsResultsDir fsResultsDir
    (by decide) (by decide)).1 (by decide)

/-- C6: the configuration with the default socket URI, image `busybox`, scan
types `["clamav"]`, an empty ClamAV socket path and all other fields zero
makes `Validate` return `MissingClamSocket`, whatever the filesystem state —
in particular the clamav-socket rule fires before the scan-type and
pull-policy domain rules. -/
theorem validate_clamav_scenario (fs : FS) :
    Validate optsClamavScenario fs = some Err.MissingClamSocket := rfl

/-- C7: `Unique` returns each distinct input value exactly once preserving
first-occurrence order (it equals the first-occurrence de-duplication
`dedupFirst`, has no duplicates, and keeps exactly the input's members), and
it is idempotent. -/
theorem unique_correct (a : List String) :
    Unique (Unique a) = Unique a
      ∧ Unique a = dedupFirst a
      ∧ (Unique a).Nodup
      ∧ ∀ x, x ∈ Unique a ↔ x ∈ a := by
  have h1 := unique_eq_dedupFirst a
  have hn : (Unique a).Nodup := by rw [h1]; exact nodup_dedupFirst a
  refine ⟨?_, h1, hn, ?_⟩
  · rw [unique_eq_dedupFirst (Unique a), dedupFirst_of_nodup (Unique a) hn]
  · intro x
    rw [h1, mem_dedupFirst]

/-- C8: `Validate` is deterministic — equal configurations under equal
filesystem states validate to the same result.  (In this embedding `Validate`
is a pure function of the record and the stat map, mirroring the source,
which never writes to a field of the receiver, so mutation-freedom holds by
construction.) -/
theorem validate_deterministic (i j : ImageInspectorOptions) (fs gs : FS)
    (hij : i = j) (hfs : fs = gs) : Validate i fs = Validate j gs := by
  rw [hij, hfs]

theorem validate_deterministic_witness :
    Validate zeroOptions (fun _ => StatResult.otherErr)
      = Validate zeroOptions (fun _ => StatResult.otherErr) :=
  validate_deterministic zeroOptions zeroOptions
    (fun _ => StatResult.otherErr) (fun _ => StatResult.otherErr) rfl rfl

theorem firstViolation_some (rs : List (ImageInspectorOptions → FS → Option Err))
    (i : ImageInspectorOptions) (fs : FS) (e : Err)
    (h : firstViolation rs i fs = some e) : ∃ r ∈ rs, r i fs = some e := by
  induction rs with
  | nil => cases h
  | cons r rs ih =>
    cases hr : r i fs with
    | some x =>
      rw [firstViolation, hr] at h
      have h2 : some x = some e := h
      exact ⟨r, List.mem_cons_self r rs, by rw [hr]; exact h2⟩
    | none =>
      rw [firstViolation, hr, Option.none_or] at h
      obtain ⟨q, hq, he⟩ := ih h
      exact ⟨q, List.mem_cons_of_mem r hq, he⟩

/-- C9: the untouched default configuration fails validation with
`MissingTarget` — the defaults populate the URI, the empty sequences, the CVE
feed and the pull policy, but neither `ImageRef` nor `ContainerRef`. -/
theorem default_options_invalid (fs : FS) :
    Validate NewDefaultImageInspectorOptions fs = some Err.MissingTarget := rfl

/-- C10: the filesystem checks are permissive toward stat failures other than
definite non-existence — `Validate` reports `ResultsDirNotADirectory` for a
path only when stat succeeded there and returned a non-directory, and
`FileNotFound` for a path only when stat failed there with a does-not-exist
error; a path whose stat fails any other way (e.g. permission denied) can
trigger neither error. -/
theorem validate_stat_permissive (i : ImageInspectorOptions) (fs : FS) :
    (∀ d, Validate i fs = some (Err.ResultsDirNotADirectory d) →
        fs d = StatResult.found false)
      ∧ (∀ p, Validate i fs = some (Err.FileNotFound p) →
        fs p = StatResult.notExist) := by
  constructor
  · intro d h
    rw [validate_eq_firstViolation] at h
    obtain ⟨r, hr, he⟩ := firstViolation_some rules i fs _ h
    simp only [rules, List.mem_cons, List.not_mem_nil, or_false] at hr
    rcases hr with rfl | rfl | rfl | rfl | rfl | rfl | rfl | rfl | rfl | rfl | rfl |
      rfl | rfl | rfl | rfl
    · unfold r1 at he; split at he <;> simp_all
    · unfold r2 at he; split at he <;> simp_all
    · unfold r3 at he; split at he <;> simp_all
    · unfold r4 at he; split at he <;> simp_all
    · unfold r5 at he; split at he <;> simp_all
    · unfold r6 at he; split at he <;> simp_all
    · unfold r7 at he; split at he <;> simp_all
    · unfold r8 at he; split at he <;> simp_all
    · unfold r9 at he
      split at he
      · rename_i hcond
        rw [Option.some.injEq, Err.ResultsDirNotADirectory.injEq] at he
        rw [← he]
        exact hcond.2
      · cases he
    · unfold r10 at he; split at he <;> simp_all
    · unfold r11 at he; split at he <;> simp_all
    · unfold r12 at he
      cases hf : (i.DockerCfg ++ [i.PasswordFile]).find?
          (fun q => decide (q ≠ "" ∧ fs q = StatResult.notExist)) with
      | none => rw [hf] at he; cases he
      | some a => rw [hf] at he; simp at he
    · unfold r13 at he; split at he <;> simp_all
    · unfold r14 at he
      cases hf : i.ScanTypes.find? (fun v => decide (v ∉ ScanOptions)) with
      | none => rw [hf] at he; cases he
      | some a => rw [hf] at he; simp at he
    · unfold r15 at he; split at he <;> simp_all
  · intro p h
    rw [validate_eq_firstViolation] at h
    obtain ⟨r, hr, he⟩ := firstViolation_some rules i fs _ h
    simp only [rules, List.mem_cons, List.not_mem_nil, or_false] at hr
    rcases hr with rfl | rfl | rfl | rfl | rfl | rfl | rfl | rfl | rfl | rfl | rfl |
      rfl | rfl | rfl | rfl
    · unfold r1 at he; split at he <;> simp_all
    · unfold r2 at he; split at he <;> simp_all
    · unfold r3 at he; split at he <;> simp_all
    · unfold r4 at he; split at he <;> simp_all
    · unfold r5 at he; split at he <;> simp_all
    · unfold r6 at he; split at he <;> simp_all
    · unfold r7 at he; split at he <;> simp_all
    · unfold r8 at he; split at he <;> simp_all
    · unfold r9 at he; split at he <;> simp_all
    · unfold r10 at he; split at he <;> simp_all
    · unfold r11 at he; split at he <;> simp_all
    · unfold r12 at he
      cases hf : (i.DockerCfg ++ [i.PasswordFile]).find?
          (fun q => decide (q ≠ "" ∧ fs q = StatResult.notExist)) with
      | none => rw [hf] at he; cases he
      | some a =>
        rw [hf] at he
        have he2 : some (Err.FileNotFound a) = some (Err.FileNotFound p) := he
        have hap : a = p := Err.FileNotFound.inj (Option.some.inj he2)
        have hpred := List.find?_some hf
        rw [decide_eq_true_eq] at hpred
        rw [← hap]
        exact hpred.2
    · unfold r13 at he; split at he <;> simp_all
    · unfold r14 at he
      cases hf : i.ScanTypes.find? (fun v => decide (v ∉ ScanOptions)) with
      | none => rw [hf] at he; cases he
      | some a => rw [hf] at he; simp at he
    · unfold r15 at he; split at he <;> simp_all

theorem validate_stat_permissive_witness :
    fsResultsDir "/tmp/f" = StatResult.found false :=
  (validate_stat_permissive optsResultsDir fsResultsDir).1 "/tmp/f" (by decide)

end ImageInspector
